import Mathlib

/-!
Verification of the `sqs-consumer` package: a shallow embedding in Lean 4 of
the consumer runtime (`sqs-consumer.ts` and the result-returning variant),
the double-buffered aggregator (`double-buffer.ts`), the in-memory and Redis
backoff stores, and the in-memory idempotency store.

Modelling conventions:
* A JavaScript `Map` with string keys is an association list
  `List (String × α)`; `Map.set` replaces the value of an existing key in
  place (JS `Map.set` keeps insertion order) and otherwise appends.
* Instants and durations are naturals, in milliseconds (`Date.now()` is an
  explicit `now : Nat` argument to every operation that reads the clock).
* `async` methods are state-passing functions; a caller-supplied callback
  that may reject is abstracted by a `Bool` saying whether it succeeds.
-/

/-- Lookup of a key in the association-list model of a JS `Map`. -/
def mapGet {α : Type} (m : List (String × α)) (k : String) : Option α :=
  (m.find? (fun p => p.1 == k)).map (fun p => p.2)

/-- Model of `Map.set`: replaces the value at an existing key in place,
otherwise appends a new binding at the end. -/
def mapSet {α : Type} (m : List (String × α)) (k : String) (v : α) :
    List (String × α) :=
  if m.any (fun p => p.1 == k) then
    m.map (fun p => if p.1 == k then (k, v) else p)
  else
    m ++ [(k, v)]

/-- Model of `Map.delete`. -/
def mapDelete {α : Type} (m : List (String × α)) (k : String) :
    List (String × α) :=
  m.filter (fun p => !(p.1 == k))

/-- Model of `Map.has`. -/
def mapHas {α : Type} (m : List (String × α)) (k : String) : Bool :=
  m.any (fun p => p.1 == k)

/-- Time units accepted by the stores and the consumer (`TimeUnit`). -/
inductive TimeUnit
  | ms
  | sec
  | min
  | hour
deriving DecidableEq

/-- Retry strategies (`RetryStrategy`). -/
inductive RetryStrategy
  | exponential
  | fixed
deriving DecidableEq

/-- Conversion of a delay value to milliseconds (`toMilliseconds`, identical
in the consumer and in both backoff stores). -/
def toMilliseconds (value : Nat) (unit : TimeUnit) : Nat :=
  match unit with
  | TimeUnit.ms => value
  | TimeUnit.sec => value * 1000
  | TimeUnit.min => value * 60 * 1000
  | TimeUnit.hour => value * 60 * 60 * 1000

/-! ### In-memory idempotency store (`in-memory-idempotency-store.ts`) -/

/-- State of `InMemoryIdempotencyStore`: the `processedMessages` map from
message id to absolute expiry timestamp (ms). -/
structure InMemoryIdempotencyStore where
  processedMessages : List (String × Nat)
deriving DecidableEq

/-- Embedding of the private `cleanupExpired`: deletes every entry whose
expiry timestamp is `≤ now`. -/
def InMemoryIdempotencyStore.cleanupExpired (s : InMemoryIdempotencyStore)
    (now : Nat) : InMemoryIdempotencyStore :=
  ⟨s.processedMessages.filter (fun p => !(decide (p.2 ≤ now)))⟩

/-- Embedding of `hasProcessed`: runs `cleanupExpired`, then checks `has`.
Returns the mutated store together with the answer. -/
def InMemoryIdempotencyStore.hasProcessed (s : InMemoryIdempotencyStore)
    (now : Nat) (messageId : String) : InMemoryIdempotencyStore × Bool :=
  let s' := s.cleanupExpired now
  (s', mapHas s'.processedMessages messageId)

/-- Embedding of `markProcessed`: sets the entry to expiry
`now + ttlSeconds * 1000`. -/
def InMemoryIdempotencyStore.markProcessed (s : InMemoryIdempotencyStore)
    (now : Nat) (messageId : String) (ttlSeconds : Nat) :
    InMemoryIdempotencyStore :=
  ⟨mapSet s.processedMessages messageId (now + ttlSeconds * 1000)⟩

/-- Embedding of `remove`. -/
def InMemoryIdempotencyStore.remove (s : InMemoryIdempotencyStore)
    (messageId : String) : InMemoryIdempotencyStore :=
  ⟨mapDelete s.processedMessages messageId⟩

/-! ### In-memory backoff store (`in-memory-backoff-store.ts`) -/

/-- Entry of a backoff store (`BackoffEntry`); instants in ms. -/
structure BackoffEntry where
  retryCount : Nat
  lastFailureTime : Nat
  baseDelay : Nat
  baseDelayUnit : TimeUnit
  strategy : RetryStrategy
deriving DecidableEq

/-- State of `InMemoryBackoffStore`: the `backoffEntries` map. -/
structure InMemoryBackoffStore where
  backoffEntries : List (String × BackoffEntry)
deriving DecidableEq

/-- Delay in milliseconds computed from an entry's strategy, base delay and
retry count; shared by `canProcess` and `recordFailure` in both stores. -/
def backoffDelayMs (baseDelayMs : Nat) (strategy : RetryStrategy)
    (retryCount : Nat) : Nat :=
  match strategy with
  | RetryStrategy.fixed => baseDelayMs
  | RetryStrategy.exponential => baseDelayMs * 2 ^ (retryCount - 1)

/-- Embedding of `InMemoryBackoffStore.canProcess`: true when no entry
exists or `now` has reached the entry's next retry time. -/
def InMemoryBackoffStore.canProcess (s : InMemoryBackoffStore) (now : Nat)
    (messageId : String) : Bool :=
  match mapGet s.backoffEntries messageId with
  | none => true
  | some e =>
      let baseDelayMsV := toMilliseconds e.baseDelay e.baseDelayUnit
      decide (e.lastFailureTime + backoffDelayMs baseDelayMsV e.strategy
        e.retryCount ≤ now)

/-- Embedding of `InMemoryBackoffStore.recordFailure`: bumps the retry count
(1 when no entry exists), stamps `lastFailureTime = now`, stores the base
delay in ms, and returns the store with the next retry instant. -/
def InMemoryBackoffStore.recordFailure (s : InMemoryBackoffStore) (now : Nat)
    (messageId : String) (baseDelayMsArg : Nat) (strategy : RetryStrategy) :
    InMemoryBackoffStore × Nat :=
  let retryCount := match mapGet s.backoffEntries messageId with
    | some e => e.retryCount + 1
    | none => 1
  let s' : InMemoryBackoffStore := ⟨mapSet s.backoffEntries messageId
    ⟨retryCount, now, baseDelayMsArg, TimeUnit.ms, strategy⟩⟩
  (s', now + backoffDelayMs baseDelayMsArg strategy retryCount)

/-- Embedding of `InMemoryBackoffStore.getRetryCount`. -/
def InMemoryBackoffStore.getRetryCount (s : InMemoryBackoffStore)
    (messageId : String) : Nat :=
  match mapGet s.backoffEntries messageId with
  | some e => e.retryCount
  | none => 0

/-- Embedding of `InMemoryBackoffStore.clear`. -/
def InMemoryBackoffStore.clear (s : InMemoryBackoffStore)
    (messageId : String) : InMemoryBackoffStore :=
  ⟨mapDelete s.backoffEntries messageId⟩

/-! ### Redis backoff store (`redis-backoff-store.ts`)

The Redis hash at key `keyPref ++ messageId` stores the same five fields as
`BackoffEntry` (numbers round-trip through decimal strings, elided here).
The source names the prefix field `keyPrefix`; it is shortened to `keyPref`
in this development. -/

/-- State of `RedisBackoffStore`: the configured key namespace string and the
key-value content of the Redis instance visible under it. -/
structure RedisBackoffStore where
  keyPref : String
  kv : List (String × BackoffEntry)
deriving DecidableEq

/-- Embedding of the private `getKey`. -/
def RedisBackoffStore.getKey (s : RedisBackoffStore) (messageId : String) :
    String :=
  s.keyPref ++ messageId

/-- Embedding of `RedisBackoffStore.recordFailure`: reads the current
`retryCount` field, writes the refreshed hash, and returns the next retry
instant computed exactly as in the in-memory store. -/
def RedisBackoffStore.recordFailure (s : RedisBackoffStore) (now : Nat)
    (messageId : String) (baseDelayMsArg : Nat) (strategy : RetryStrategy) :
    RedisBackoffStore × Nat :=
  let key := s.getKey messageId
  let retryCount := match mapGet s.kv key with
    | some e => e.retryCount + 1
    | none => 1
  let s' : RedisBackoffStore := ⟨s.keyPref, mapSet s.kv key
    ⟨retryCount, now, baseDelayMsArg, TimeUnit.ms, strategy⟩⟩
  (s', now + backoffDelayMs baseDelayMsArg strategy retryCount)

/-- Embedding of `RedisBackoffStore.getRetryCount`. -/
def RedisBackoffStore.getRetryCount (s : RedisBackoffStore)
    (messageId : String) : Nat :=
  match mapGet s.kv (s.getKey messageId) with
  | some e => e.retryCount
  | none => 0

/-- Successive `recordFailure` calls for one id under the exponential
strategy, at the given sequence of call instants; returns the final store and
the list of returned next-retry instants. -/
def InMemoryBackoffStore.recordFailureSeq (s : InMemoryBackoffStore)
    (messageId : String) (baseDelayMsArg : Nat) :
    List Nat → InMemoryBackoffStore × List Nat
  | [] => (s, [])
  | t :: ts =>
      let r := s.recordFailure t messageId baseDelayMsArg
        RetryStrategy.exponential
      let rest := r.1.recordFailureSeq messageId baseDelayMsArg ts
      (rest.1, r.2 :: rest.2)

/-! ### Double buffer (`double-buffer.ts`)

The two `Map` objects `bufferA`/`bufferB` are represented through the two
logical references `activeBuffer` and `flushBuffer` that the code swaps.
The periodic timer is not modelled (no real-time model); `flush` is the
synchronous-step semantics of the `async` method, with the caller-supplied
`flushCallback` abstracted by a `Bool` argument telling whether its promise
resolves. -/

/-- Configuration of the double buffer (`DoubleBufferConfig`). -/
structure DoubleBufferConfig where
  flushIntervalMs : Nat
  maxBufferSize : Option Nat
deriving DecidableEq

/-- Buffer state of `DoubleBuffer`. -/
structure DoubleBuffer (T : Type) where
  activeBuffer : List (String × T)
  flushBuffer : List (String × T)
  isFlushing : Bool

/-- Result of one run of the private `flush` method: the final buffer state,
the map passed to `flushCallback` (when it was invoked), and whether the
promise returned by `flush` rejected. -/
structure FlushResult (T : Type) where
  state : DoubleBuffer T
  emitted : Option (List (String × T))
  threw : Bool

/-- Embedding of `DoubleBuffer.flush`: skip when already flushing or the
active buffer is empty; otherwise swap, invoke the callback on the old
active buffer, clear it on success, and on failure swap back and rethrow
(resetting `isFlushing` in the `finally` block either way). -/
def DoubleBuffer.flush {T : Type} (s : DoubleBuffer T) (cbOk : Bool) :
    FlushResult T :=
  if s.isFlushing || s.activeBuffer.isEmpty then
    ⟨s, none, false⟩
  else if cbOk then
    ⟨⟨s.flushBuffer, [], false⟩, some s.activeBuffer, false⟩
  else
    ⟨⟨s.activeBuffer, s.flushBuffer, false⟩, some s.activeBuffer, true⟩

/-- Result of one public double-buffer operation: final state, callback
input when a flush ran, whether the operation threw to its caller, and
whether a fire-and-forget flush promise rejected unhandled. -/
structure OpResult (T : Type) where
  state : DoubleBuffer T
  emitted : Option (List (String × T))
  threwToCaller : Bool
  unhandledRejection : Bool

/-- Embedding of `DoubleBuffer.set`: write into the active buffer, then—when
`maxBufferSize` is configured (truthy) and the active size reached it—invoke
`this.flush()` WITHOUT awaiting it, so a rejection of that promise never
reaches the caller of `set`. -/
def DoubleBuffer.set {T : Type} (cfg : DoubleBufferConfig)
    (s : DoubleBuffer T) (k : String) (v : T) (cbOk : Bool) : OpResult T :=
  let s' : DoubleBuffer T := ⟨mapSet s.activeBuffer k v, s.flushBuffer,
    s.isFlushing⟩
  let hit := match cfg.maxBufferSize with
    | some m => !(m == 0) && decide (m ≤ s'.activeBuffer.length)
    | none => false
  if hit then
    let r := s'.flush cbOk
    ⟨r.state, r.emitted, false, r.threw⟩
  else
    ⟨s', none, false, false⟩

/-- Embedding of `DoubleBuffer.update`: reduce with the previous value when
the key exists, else store the value; then the same un-awaited size-triggered
flush as in `set`. -/
def DoubleBuffer.update {T : Type} (cfg : DoubleBufferConfig)
    (s : DoubleBuffer T) (k : String) (v : T) (reducer : T → T → T)
    (cbOk : Bool) : OpResult T :=
  let newV := match mapGet s.activeBuffer k with
    | some prev => reducer prev v
    | none => v
  let s' : DoubleBuffer T := ⟨mapSet s.activeBuffer k newV, s.flushBuffer,
    s.isFlushing⟩
  let hit := match cfg.maxBufferSize with
    | some m => !(m == 0) && decide (m ≤ s'.activeBuffer.length)
    | none => false
  if hit then
    let r := s'.flush cbOk
    ⟨r.state, r.emitted, false, r.threw⟩
  else
    ⟨s', none, false, false⟩

/-- Embedding of `DoubleBuffer.forceFlush`: `await this.flush()`, so a
rejection propagates to the caller. -/
def DoubleBuffer.forceFlush {T : Type} (s : DoubleBuffer T) (cbOk : Bool) :
    OpResult T :=
  let r := s.flush cbOk
  ⟨r.state, r.emitted, r.threw, false⟩

/-- Embedding of `DoubleBuffer.stop`: cancels the timer (not modelled) and
`await`s a final flush, so a rejection propagates to the caller. -/
def DoubleBuffer.stop {T : Type} (s : DoubleBuffer T) (cbOk : Bool) :
    OpResult T :=
  let r := s.flush cbOk
  ⟨r.state, r.emitted, r.threw, false⟩

/-! ### Consumer runtime (`sqs-consumer.ts`)

The per-message pipeline of the exception-signalling consumer. The handler
is a function returning an outcome: `success` models a normal return,
`retryExc`/`failureExc` model throwing `RetryException`/`FailureException`,
and `unknownExc` models throwing any other error. The SQS transport is
represented by the data the runtime would send: delete-batch calls are lists
of `(Id, ReceiptHandle)` entries. -/

/-- Fields of an SQS `Message` the consumer reads: `MessageId`,
`ReceiptHandle` (both optional in the SDK type) and the
`ApproximateReceiveCount` attribute, modelled as the parsed value of its
decimal string (`none` when the attribute is absent, in which case the code
parses the literal '0'). -/
structure Message where
  MessageId : Option String
  ReceiptHandle : Option String
  approximateReceiveCount : Option Nat
deriving DecidableEq

/-- Metadata handed to the handler (`MessageMetadata`). -/
structure MessageMetadata where
  retryCount : Nat
  isLastAttempt : Bool
deriving DecidableEq

/-- Outcome of one handler invocation: normal return, thrown
`RetryException`, thrown `FailureException`, or any other thrown error. -/
inductive HandlerOutcome
  | success
  | retryExc (reason : String)
  | failureExc (reason : String)
  | unknownExc
deriving DecidableEq

/-- Classification of one delivery: the three buckets of `processMessages`,
or `skipped` when the backoff gate makes `processMessage` return without
touching any bucket. -/
inductive Bucket
  | successful
  | retry
  | permanentFailure
  | skipped
deriving DecidableEq

/-- Scalar consumer options (`SQSConsumerOptions` plus the
`maxReceiveCount` field of `SQSConfig`). -/
structure SQSConsumerOptions where
  idempotencyTtlSeconds : Nat
  backoffBaseDelay : Nat
  backoffBaseDelayUnit : TimeUnit
  retryStrategy : RetryStrategy
  maxReceiveCount : Option Nat
deriving DecidableEq

/-- Mutable stores held by the consumer; `none` models an unconfigured
store. -/
structure ConsumerState where
  idempotency : Option InMemoryIdempotencyStore
  backoff : Option InMemoryBackoffStore
deriving DecidableEq

/-- Result of `processMessage` for one message: the stores afterwards, the
bucket the message was pushed into, and whether the handler ran. -/
structure ProcResult where
  state : ConsumerState
  bucket : Bucket
  handlerInvoked : Bool
deriving DecidableEq

/-- Classification of a thrown-or-returned handler outcome: the catch
blocks of `processMessage`. `RetryException` and unknown errors share one
body (remove idempotency pre-mark, record backoff failure, bucket retry). -/
def SQSConsumer.recordRetry (opts : SQSConsumerOptions) (now : Nat)
    (st : ConsumerState) (messageId : String) : ProcResult :=
  let st2 : ConsumerState := ⟨st.idempotency.map (fun i => i.remove messageId),
    st.backoff.map (fun b => (b.recordFailure now messageId
      (toMilliseconds opts.backoffBaseDelay opts.backoffBaseDelayUnit)
      opts.retryStrategy).1)⟩
  ⟨st2, Bucket.retry, true⟩

/-- Metadata computation and handler dispatch: steps of `processMessage`
after the backoff and idempotency gates. -/
def SQSConsumer.dispatchHandler (opts : SQSConsumerOptions)
    (handler : Message → MessageMetadata → HandlerOutcome) (now : Nat)
    (st : ConsumerState) (msg : Message) (messageId : String) : ProcResult :=
  let retryCount := msg.approximateReceiveCount.getD 0
  let metadata : MessageMetadata := ⟨retryCount,
    match opts.maxReceiveCount with
    | some mrc => decide (mrc ≤ retryCount)
    | none => false⟩
  match handler msg metadata with
  | HandlerOutcome.success =>
      ⟨⟨st.idempotency, st.backoff.map (fun b => b.clear messageId)⟩,
        Bucket.successful, true⟩
  | HandlerOutcome.retryExc _ => SQSConsumer.recordRetry opts now st messageId
  | HandlerOutcome.failureExc _ => ⟨st, Bucket.permanentFailure, true⟩
  | HandlerOutcome.unknownExc => SQSConsumer.recordRetry opts now st messageId

/-- Embedding of `SQSConsumer.processMessage`: fall back to the id
'unknown' when `MessageId` is absent; skip when the backoff gate denies;
classify as successful without dispatching when already processed; otherwise
pre-mark (when an idempotency store is configured) and dispatch. -/
def SQSConsumer.processMessage (opts : SQSConsumerOptions)
    (handler : Message → MessageMetadata → HandlerOutcome) (now : Nat)
    (st : ConsumerState) (msg : Message) : ProcResult :=
  let messageId := msg.MessageId.getD "unknown"
  let backoffOk := match st.backoff with
    | some b => b.canProcess now messageId
    | none => true
  if !backoffOk then
    ⟨st, Bucket.skipped, false⟩
  else
    match st.idempotency with
    | some i =>
        let checked := i.hasProcessed now messageId
        if checked.2 then
          ⟨⟨some checked.1, st.backoff⟩, Bucket.successful, false⟩
        else
          let i1 := checked.1.markProcessed now messageId
            opts.idempotencyTtlSeconds
          SQSConsumer.dispatchHandler opts handler now ⟨some i1, st.backoff⟩
            msg messageId
    | none => SQSConsumer.dispatchHandler opts handler now st msg messageId

/-- One `processMessage` per message of the batch, in arrival order,
threading the stores; returns the final stores and each message's bucket. -/
def SQSConsumer.processLoop (opts : SQSConsumerOptions)
    (handler : Message → MessageMetadata → HandlerOutcome) (now : Nat) :
    ConsumerState → List Message → ConsumerState × List (Message × Bucket)
  | st, [] => (st, [])
  | st, m :: ms =>
      let r := SQSConsumer.processMessage opts handler now st m
      let rest := SQSConsumer.processLoop opts handler now r.state ms
      (rest.1, (m, r.bucket) :: rest.2)

/-- Messages of a result list that fell into the given bucket, in order. -/
def SQSConsumer.bucketOf (rs : List (Message × Bucket)) (b : Bucket) :
    List Message :=
  (rs.filter (fun p => p.2 == b)).map (fun p => p.1)

/-- Entries of one `deleteMessages` call: messages without a receipt handle
are filtered out, and each remaining message gets its index in the filtered
list as the batch-entry `Id`. -/
def SQSConsumer.deleteMessagesEntries (msgs : List Message) :
    List (String × String) :=
  (msgs.filterMap Message.ReceiptHandle).enum.map
    (fun p => (toString p.1, p.2))

/-- Delete-batch calls issued after the per-message phase: one
`deleteMessages` call for a non-empty `successfulMessages` list and one for
a non-empty `permanentFailureMessages` list, where `deleteMessages` itself
sends nothing when its entry list is empty. -/
def SQSConsumer.deletePhase (successful permanentFailure : List Message) :
    List (List (String × String)) :=
  ((if successful.isEmpty then [] else
      [SQSConsumer.deleteMessagesEntries successful]) ++
   (if permanentFailure.isEmpty then [] else
      [SQSConsumer.deleteMessagesEntries permanentFailure])).filter
    (fun es => !es.isEmpty)

/-- Outcome of one batch of `processMessages`: final stores, the four
per-message classifications, and the delete-batch calls sent. -/
structure BatchResult where
  state : ConsumerState
  successful : List Message
  retryMessages : List Message
  permanentFailure : List Message
  skipped : List Message
  deleteCalls : List (List (String × String))
deriving DecidableEq

/-- Embedding of `SQSConsumer.processMessages` in its default sequential
dispatch mode (`processInParallel = false`): one `processMessage` per
message in arrival order, then the per-bucket delete phase. The parallel
branch (`Promise.all` over the same per-message steps with the stores
shared between the in-flight closures) is genuinely concurrent — its
interleavings can differ from the sequential outcome — and is outside this
interleaving-free model; only the delete phase below the dispatch, which is
common to both branches, is asserted about it elsewhere. -/
def SQSConsumer.processMessages (opts : SQSConsumerOptions)
    (handler : Message → MessageMetadata → HandlerOutcome) (now : Nat)
    (st : ConsumerState) (msgs : List Message) : BatchResult :=
  let r := SQSConsumer.processLoop opts handler now st msgs
  let succ := SQSConsumer.bucketOf r.2 Bucket.successful
  let ret := SQSConsumer.bucketOf r.2 Bucket.retry
  let pf := SQSConsumer.bucketOf r.2 Bucket.permanentFailure
  let sk := SQSConsumer.bucketOf r.2 Bucket.skipped
  ⟨r.1, succ, ret, pf, sk, SQSConsumer.deletePhase succ pf⟩

/-! ### Result-returning consumer variant and its visibility math

The second `SQSConsumer` in the source (the one whose handlers return a
`MessageResult` and that calls `changeVisibility` for retry messages). Only
its backoff-delay and visibility-timeout computations are needed here. -/

/-- Scalar options of the result-returning consumer variant. -/
structure V2Options where
  backoffBaseDelay : Nat
  backoffBaseDelayUnit : TimeUnit
  retryStrategy : RetryStrategy
deriving DecidableEq

/-- Embedding of the variant's `calculateBackoffDelay`: fixed strategy gives
the base delay in ms; exponential gives `baseDelayMs * 2 ^ retryCount`. -/
def SQSConsumerV2.calculateBackoffDelay (opts : V2Options)
    (retryCount : Nat) : Nat :=
  let baseDelayMsV := toMilliseconds opts.backoffBaseDelay
    opts.backoffBaseDelayUnit
  match opts.retryStrategy with
  | RetryStrategy.fixed => baseDelayMsV
  | RetryStrategy.exponential => baseDelayMsV * 2 ^ retryCount

/-- Embedding of the variant's `calculateVisibilityTimeout`:
`Math.min(Math.floor(backoffDelayMs / 1000), 43200)`, with the retry count
parsed from the `ApproximateReceiveCount` attribute ('0' when absent). -/
def SQSConsumerV2.calculateVisibilityTimeout (opts : V2Options)
    (msg : Message) : Nat :=
  let retryCount := msg.approximateReceiveCount.getD 0
  min (SQSConsumerV2.calculateBackoffDelay opts retryCount / 1000) 43200

/-- The `changeVisibility` calls the variant's `processMessages` issues for
its retry bucket: one call per retry message that has a receipt handle
(`changeMessageVisibility` returns without sending when the handle is
absent), pairing the handle with `calculateVisibilityTimeout`. -/
def SQSConsumerV2.retryPhase (opts : V2Options)
    (retryMessages : List Message) : List (String × Nat) :=
  retryMessages.filterMap (fun m => m.ReceiptHandle.map
    (fun h => (h, SQSConsumerV2.calculateVisibilityTimeout opts m)))

/-- Status of the variant's explicit `MessageResult`. -/
inductive MessageResultStatus
  | success
  | retry
  | fail
deriving DecidableEq

/-- The variant's `MessageResult`: a status and an optional reason. -/
structure MessageResult where
  status : MessageResultStatus
  reason : Option String
deriving DecidableEq

/-- Metadata computation and handler dispatch of the variant's
`processMessage`. The handler returns `Except.ok` with its `MessageResult`
or `Except.error` when it throws; the call is NOT wrapped in try/catch, so
a thrown error propagates to the caller unchanged. A retry result is
returned without marking; success and fail results are marked in the
idempotency store (when configured) before returning. -/
def SQSConsumerV2.dispatchResult (ttlSeconds : Nat)
    (maxReceiveCount : Option Nat)
    (handler : Message → MessageMetadata → Except String MessageResult)
    (now : Nat) (idem : Option InMemoryIdempotencyStore) (msg : Message)
    (messageId : String) :
    Except String (Option InMemoryIdempotencyStore × MessageResult) :=
  let retryCount := msg.approximateReceiveCount.getD 0
  let metadata : MessageMetadata := ⟨retryCount,
    match maxReceiveCount with
    | some mrc => decide (mrc ≤ retryCount)
    | none => false⟩
  match handler msg metadata with
  | Except.error e => Except.error e
  | Except.ok result =>
      if result.status = MessageResultStatus.retry then
        Except.ok (idem, result)
      else
        Except.ok (idem.map (fun i => i.markProcessed now messageId
          ttlSeconds), result)

/-- Embedding of the variant's `processMessage`: the 'unknown' fallback id,
the already-processed short-circuit (returning a success result without
dispatching), then `dispatchResult`. No pre-mark before the handler, and no
backoff store exists in this variant. -/
def SQSConsumerV2.processMessage (ttlSeconds : Nat)
    (maxReceiveCount : Option Nat)
    (handler : Message → MessageMetadata → Except String MessageResult)
    (now : Nat) (idem : Option InMemoryIdempotencyStore) (msg : Message) :
    Except String (Option InMemoryIdempotencyStore × MessageResult) :=
  let messageId := msg.MessageId.getD "unknown"
  match idem with
  | some i =>
      let checked := i.hasProcessed now messageId
      if checked.2 then
        Except.ok (some checked.1,
          ⟨MessageResultStatus.success, none⟩)
      else
        SQSConsumerV2.dispatchResult ttlSeconds maxReceiveCount handler now
          (some checked.1) msg messageId
  | none =>
      SQSConsumerV2.dispatchResult ttlSeconds maxReceiveCount handler now
        none msg messageId

/-- The variant's sequential per-message loop: results are collected in
arrival order; an error thrown by any `processMessage` aborts the loop and
propagates (in parallel mode the `Promise.all` likewise rejects). -/
def SQSConsumerV2.processLoop (ttlSeconds : Nat)
    (maxReceiveCount : Option Nat)
    (handler : Message → MessageMetadata → Except String MessageResult)
    (now : Nat) :
    Option InMemoryIdempotencyStore → List Message →
      Except String (Option InMemoryIdempotencyStore ×
        List (Message × MessageResult))
  | idem, [] => Except.ok (idem, [])
  | idem, m :: ms =>
      match SQSConsumerV2.processMessage ttlSeconds maxReceiveCount handler
        now idem m with
      | Except.error e => Except.error e
      | Except.ok (idem', r) =>
          match SQSConsumerV2.processLoop ttlSeconds maxReceiveCount
            handler now idem' ms with
          | Except.error e => Except.error e
          | Except.ok (idem'', rest) =>
              Except.ok (idem'', (m, r) :: rest)

/-- Outcome of one batch of the variant's `processMessages` when no handler
throw escapes: final store, the three buckets of `categorizeMessage`, the
delete-batch calls and the change-visibility calls. -/
structure V2BatchResult where
  idem : Option InMemoryIdempotencyStore
  successful : List Message
  retryMessages : List Message
  permanentFailure : List Message
  deleteCalls : List (List (String × String))
  visibilityCalls : List (String × Nat)
deriving DecidableEq

/-- Embedding of the variant's `processMessages`: categorize each result,
then the same per-bucket delete phase as the exception-signalling consumer,
then one `changeVisibility` per retry message. An escaping handler throw
aborts the batch before any categorization, delete-batch or
change-visibility call; the polling loop's catch-all swallows it. -/
def SQSConsumerV2.processMessages (opts : V2Options) (ttlSeconds : Nat)
    (maxReceiveCount : Option Nat)
    (handler : Message → MessageMetadata → Except String MessageResult)
    (now : Nat) (idem : Option InMemoryIdempotencyStore)
    (msgs : List Message) : Except String V2BatchResult :=
  match SQSConsumerV2.processLoop ttlSeconds maxReceiveCount handler now
    idem msgs with
  | Except.error e => Except.error e
  | Except.ok (idem', rs) =>
      let succ := (rs.filter
        (fun p => p.2.status == MessageResultStatus.success)).map
        (fun p => p.1)
      let ret := (rs.filter
        (fun p => p.2.status == MessageResultStatus.retry)).map
        (fun p => p.1)
      let pf := (rs.filter
        (fun p => p.2.status == MessageResultStatus.fail)).map
        (fun p => p.1)
      Except.ok ⟨idem', succ, ret, pf, SQSConsumer.deletePhase succ pf,
        SQSConsumerV2.retryPhase opts ret⟩

/-- Receipt handles carried by a list of messages, in order. -/
def handlesOf (l : List Message) : List String :=
  l.filterMap Message.ReceiptHandle

/-! ### Theorems -/

theorem mem_mapSet_self {α : Type} (m : List (String × α)) (k : String)
    (v : α) : (k, v) ∈ mapSet m k v := by
  unfold mapSet
  split
  · rename_i h
    obtain ⟨p, hp, hk⟩ := List.any_eq_true.mp h
    refine List.mem_map.mpr ⟨p, hp, ?_⟩
    simp [hk]
  · exact List.mem_append_right _ (List.mem_singleton.mpr rfl)

theorem mapSet_keyed_eq {α : Type} {m : List (String × α)} {k : String}
    {v : α} : ∀ p ∈ mapSet m k v, p.1 = k → p = (k, v) := by
  intro p hp hk
  unfold mapSet at hp
  split at hp
  · obtain ⟨q, hq, hfq⟩ := List.mem_map.mp hp
    by_cases hqk : q.1 = k
    · simpa [hqk] using hfq.symm
    · simp only [beq_iff_eq, hqk, if_false] at hfq
      exact absurd (hfq ▸ hk) hqk
  · rename_i h
    rcases List.mem_append.mp hp with hm | hs
    · exact absurd (show (m.any fun q => q.1 == k) = true from
        List.any_eq_true.mpr ⟨p, hm, beq_iff_eq.mpr hk⟩) h
    · simpa using hs

theorem mapGet_mapSet_self {α : Type} (m : List (String × α)) (k : String)
    (v : α) : mapGet (mapSet m k v) k = some v := by
  unfold mapGet
  have hmem := mem_mapSet_self m k v
  rcases hfind : (mapSet m k v).find? (fun p => p.1 == k) with _ | p
  · exact absurd (List.find?_eq_none.mp hfind (k, v) hmem) (by simp)
  · have hp := List.find?_some hfind
    have hpm := List.mem_of_find?_eq_some hfind
    have hkv := mapSet_keyed_eq p hpm (beq_iff_eq.mp hp)
    rw [hfind, hkv]
    rfl

theorem mapGet_mapDelete_self {α : Type} (m : List (String × α))
    (k : String) : mapGet (mapDelete m k) k = none := by
  unfold mapGet mapDelete
  rcases hfind : (m.filter (fun p => !(p.1 == k))).find? (fun p => p.1 == k)
    with _ | p
  · simp [hfind]
  · have hp := List.find?_some hfind
    have hpm := List.mem_of_find?_eq_some hfind
    have := (List.mem_filter.mp hpm).2
    simp only [hp] at this
    exact absurd this (by simp)

theorem hasProcessed_markProcessed_of_lt {s : InMemoryIdempotencyStore}
    {tMark tQuery ttl : Nat} {id : String}
    (h : tQuery < tMark + ttl * 1000) :
    ((s.markProcessed tMark id ttl).hasProcessed tQuery id).2 = true := by
  unfold InMemoryIdempotencyStore.hasProcessed
    InMemoryIdempotencyStore.markProcessed
    InMemoryIdempotencyStore.cleanupExpired mapHas
  refine List.any_eq_true.mpr ⟨(id, tMark + ttl * 1000), ?_, by simp⟩
  exact List.mem_filter.mpr
    ⟨mem_mapSet_self _ _ _, by simpa using Nat.not_le.mpr h⟩

theorem hasProcessed_markProcessed_of_ge {s : InMemoryIdempotencyStore}
    {tMark tQuery ttl : Nat} {id : String}
    (h : tMark + ttl * 1000 ≤ tQuery) :
    ((s.markProcessed tMark id ttl).hasProcessed tQuery id).2 = false := by
  unfold InMemoryIdempotencyStore.hasProcessed
    InMemoryIdempotencyStore.markProcessed
    InMemoryIdempotencyStore.cleanupExpired mapHas
  refine List.any_eq_false.mpr ?_
  intro p hp
  have hmem := (List.mem_filter.mp hp).1
  have hkeep := (List.mem_filter.mp hp).2
  intro hk
  have := mapSet_keyed_eq p hmem (beq_iff_eq.mp hk)
  subst this
  simp only [Bool.not_eq_true', decide_eq_false_iff_not, Nat.not_le] at hkeep
  exact absurd h (Nat.not_le.mpr hkeep)

theorem getRetryCount_recordFailure (s : InMemoryBackoffStore) (now : Nat)
    (id : String) (base : Nat) (strat : RetryStrategy) :
    (s.recordFailure now id base strat).1.getRetryCount id =
      s.getRetryCount id + 1 := by
  unfold InMemoryBackoffStore.recordFailure InMemoryBackoffStore.getRetryCount
  rcases h : mapGet s.backoffEntries id with _ | e <;>
    simp [h, mapGet_mapSet_self]

theorem recordFailure_entry (s : InMemoryBackoffStore) (now : Nat)
    (id : String) (base : Nat) (strat : RetryStrategy) :
    mapGet (s.recordFailure now id base strat).1.backoffEntries id =
      some ⟨s.getRetryCount id + 1, now, base, TimeUnit.ms, strat⟩ := by
  unfold InMemoryBackoffStore.recordFailure InMemoryBackoffStore.getRetryCount
  rcases h : mapGet s.backoffEntries id with _ | e <;>
    simp [h, mapGet_mapSet_self]

theorem recordFailure_exp_val (s : InMemoryBackoffStore) (now : Nat)
    (id : String) (base : Nat) :
    (s.recordFailure now id base RetryStrategy.exponential).2 =
      now + base * 2 ^ s.getRetryCount id := by
  unfold InMemoryBackoffStore.recordFailure InMemoryBackoffStore.getRetryCount
    backoffDelayMs
  rcases h : mapGet s.backoffEntries id with _ | e <;> simp [h]

theorem recordFailure_fixed_val (s : InMemoryBackoffStore) (now : Nat)
    (id : String) (base : Nat) :
    (s.recordFailure now id base RetryStrategy.fixed).2 = now + base := by
  unfold InMemoryBackoffStore.recordFailure backoffDelayMs
  rcases h : mapGet s.backoffEntries id with _ | e <;> simp [h]

theorem redis_getRetryCount_recordFailure (s : RedisBackoffStore) (now : Nat)
    (id : String) (base : Nat) (strat : RetryStrategy) :
    (s.recordFailure now id base strat).1.getRetryCount id =
      s.getRetryCount id + 1 := by
  unfold RedisBackoffStore.recordFailure RedisBackoffStore.getRetryCount
    RedisBackoffStore.getKey
  rcases h : mapGet s.kv (s.keyPref ++ id) with _ | e <;>
    simp [h, mapGet_mapSet_self]

theorem redis_recordFailure_exp_val (s : RedisBackoffStore) (now : Nat)
    (id : String) (base : Nat) :
    (s.recordFailure now id base RetryStrategy.exponential).2 =
      now + base * 2 ^ s.getRetryCount id := by
  unfold RedisBackoffStore.recordFailure RedisBackoffStore.getRetryCount
    RedisBackoffStore.getKey backoffDelayMs
  rcases h : mapGet s.kv (s.keyPref ++ id) with _ | e <;> simp [h]

theorem redis_recordFailure_fixed_val (s : RedisBackoffStore) (now : Nat)
    (id : String) (base : Nat) :
    (s.recordFailure now id base RetryStrategy.fixed).2 = now + base := by
  unfold RedisBackoffStore.recordFailure RedisBackoffStore.getKey
    backoffDelayMs
  rcases h : mapGet s.kv (s.keyPref ++ id) with _ | e <;> simp [h]

theorem recordFailure_step_mono (s : InMemoryBackoffStore) {t₁ t₂ : Nat}
    (id : String) (base : Nat) (h : t₁ ≤ t₂) :
    (s.recordFailure t₁ id base RetryStrategy.exponential).2 ≤
      ((s.recordFailure t₁ id base RetryStrategy.exponential).1.recordFailure
        t₂ id base RetryStrategy.exponential).2 := by
  rw [recordFailure_exp_val, recordFailure_exp_val,
    getRetryCount_recordFailure]
  exact Nat.add_le_add h (Nat.mul_le_mul_left base
    (Nat.pow_le_pow_right (by norm_num) (Nat.le_succ _)))

theorem flush_failed_state {T : Type} (s : DoubleBuffer T)
    (h1 : s.isFlushing = false) (h2 : s.activeBuffer ≠ []) :
    s.flush false = ⟨⟨s.activeBuffer, s.flushBuffer, false⟩,
      some s.activeBuffer, true⟩ := by
  unfold DoubleBuffer.flush
  simp [h1, h2]

theorem flush_ok_emits {T : Type} (s : DoubleBuffer T)
    (h1 : s.isFlushing = false) (h2 : s.activeBuffer ≠ []) :
    (s.flush true).emitted = some s.activeBuffer := by
  unfold DoubleBuffer.flush
  simp [h1, h2]

/-! ### Helper lemmas about the batch pipeline -/

theorem processLoop_map_fst (opts : SQSConsumerOptions)
    (handler : Message → MessageMetadata → HandlerOutcome) (now : Nat)
    (st : ConsumerState) (msgs : List Message) :
    (SQSConsumer.processLoop opts handler now st msgs).2.map Prod.fst =
      msgs := by
  induction msgs generalizing st with
  | nil => rfl
  | cons m ms ih =>
      simp [SQSConsumer.processLoop, ih]

theorem entries_map_snd (msgs : List Message) :
    (SQSConsumer.deleteMessagesEntries msgs).map Prod.snd =
      msgs.filterMap Message.ReceiptHandle := by
  unfold SQSConsumer.deleteMessagesEntries
  rw [List.map_map]
  exact List.enum_map_snd _

theorem flatten_filter_not_isEmpty {α : Type} (L : List (List α)) :
    (L.filter (fun es => !es.isEmpty)).flatten = L.flatten := by
  induction L with
  | nil => rfl
  | cons a L ih =>
      rcases a with _ | ⟨x, xs⟩ <;> simp [List.filter_cons, ih]

theorem deletePhase_flatten (succ pf : List Message) :
    (SQSConsumer.deletePhase succ pf).flatten =
      SQSConsumer.deleteMessagesEntries succ ++
        SQSConsumer.deleteMessagesEntries pf := by
  unfold SQSConsumer.deletePhase
  rw [flatten_filter_not_isEmpty, List.flatten_append]
  rcases succ with _ | ⟨s0, ss⟩ <;> rcases pf with _ | ⟨p0, ps⟩ <;>
    simp [SQSConsumer.deleteMessagesEntries]

theorem deletePhase_length (succ pf : List Message) :
    (SQSConsumer.deletePhase succ pf).length =
      (if SQSConsumer.deleteMessagesEntries succ = [] then 0 else 1) +
      (if SQSConsumer.deleteMessagesEntries pf = [] then 0 else 1) := by
  unfold SQSConsumer.deletePhase
  rw [List.filter_append, List.length_append]
  congr 1
  · rcases succ with _ | ⟨s0, ss⟩
    · simp [SQSConsumer.deleteMessagesEntries]
    · by_cases h : SQSConsumer.deleteMessagesEntries (s0 :: ss) = [] <;>
        simp [List.filter_cons, h, List.isEmpty_iff]
  · rcases pf with _ | ⟨p0, ps⟩
    · simp [SQSConsumer.deleteMessagesEntries]
    · by_cases h : SQSConsumer.deleteMessagesEntries (p0 :: ps) = [] <;>
        simp [List.filter_cons, h, List.isEmpty_iff]

theorem handlesOf_cons_some {m : Message} {h : String} (l : List Message)
    (hrh : m.ReceiptHandle = some h) :
    handlesOf (m :: l) = h :: handlesOf l := by
  simp [handlesOf, List.filterMap_cons, hrh]

theorem handlesOf_cons_none {m : Message} (l : List Message)
    (hrh : m.ReceiptHandle = none) :
    handlesOf (m :: l) = handlesOf l := by
  simp [handlesOf, List.filterMap_cons, hrh]

theorem bucketOf_cons (m : Message) (b₀ : Bucket)
    (rs : List (Message × Bucket)) (b : Bucket) :
    SQSConsumer.bucketOf ((m, b₀) :: rs) b =
      if b₀ = b then m :: SQSConsumer.bucketOf rs b
      else SQSConsumer.bucketOf rs b := by
  by_cases hb : b₀ = b <;> simp [SQSConsumer.bucketOf, List.filter_cons, hb]

theorem bucket_handle_count (rs : List (Message × Bucket)) (h : String) :
    (handlesOf (SQSConsumer.bucketOf rs Bucket.successful)).count h +
      (handlesOf (SQSConsumer.bucketOf rs Bucket.retry)).count h +
      (handlesOf (SQSConsumer.bucketOf rs Bucket.permanentFailure)).count h +
      (handlesOf (SQSConsumer.bucketOf rs Bucket.skipped)).count h =
      (handlesOf (rs.map Prod.fst)).count h := by
  induction rs with
  | nil => simp [SQSConsumer.bucketOf, handlesOf]
  | cons p rs ih =>
      obtain ⟨m, b⟩ := p
      cases hrh : m.ReceiptHandle with
      | none =>
          cases b <;>
            simp [List.map_cons, bucketOf_cons,
              handlesOf_cons_none _ hrh] <;> omega
      | some h' =>
          by_cases hh : h' = h <;>
            cases b <;>
              simp [List.map_cons, bucketOf_cons,
                handlesOf_cons_some _ hrh, List.count_cons, hh] <;> omega

/-! ### Claim theorems -/

/-- C4: `recordFailure` creates the entry with retryCount 1 when absent and
otherwise increments it, stamps the last-failure instant with `now`, and
returns `now + baseDelayMs` under the fixed strategy and
`now + baseDelayMs * 2 ^ (retryCount - 1)` (with the updated retryCount)
under the exponential strategy, so the first backoff equals the base delay;
the Redis store computes the same values. -/
theorem recordFailure_contract (s : InMemoryBackoffStore)
    (r : RedisBackoffStore) (now : Nat) (id : String) (base : Nat)
    (strat : RetryStrategy) :
    (s.recordFailure now id base strat).1.getRetryCount id =
      s.getRetryCount id + 1 ∧
    mapGet (s.recordFailure now id base strat).1.backoffEntries id =
      some ⟨s.getRetryCount id + 1, now, base, TimeUnit.ms, strat⟩ ∧
    (s.recordFailure now id base RetryStrategy.fixed).2 = now + base ∧
    (s.recordFailure now id base RetryStrategy.exponential).2 =
      now + base * 2 ^ ((s.recordFailure now id base
        RetryStrategy.exponential).1.getRetryCount id - 1) ∧
    (mapGet s.backoffEntries id = none →
      (s.recordFailure now id base strat).1.getRetryCount id = 1 ∧
      (s.recordFailure now id base RetryStrategy.exponential).2 =
        now + base) ∧
    (r.recordFailure now id base strat).1.getRetryCount id =
      r.getRetryCount id + 1 ∧
    (r.recordFailure now id base RetryStrategy.fixed).2 = now + base ∧
    (r.recordFailure now id base RetryStrategy.exponential).2 =
      now + base * 2 ^ ((r.recordFailure now id base
        RetryStrategy.exponential).1.getRetryCount id - 1) := by
  have habs : mapGet s.backoffEntries id = none → s.getRetryCount id = 0 := by
    intro h
    unfold InMemoryBackoffStore.getRetryCount
    rw [h]
  refine ⟨getRetryCount_recordFailure s now id base strat,
    recordFailure_entry s now id base strat,
    recordFailure_fixed_val s now id base,
    ?_, ?_,
    redis_getRetryCount_recordFailure r now id base strat,
    redis_recordFailure_fixed_val r now id base, ?_⟩
  · rw [getRetryCount_recordFailure, Nat.add_sub_cancel,
      recordFailure_exp_val]
  · intro h
    refine ⟨?_, ?_⟩
    · rw [getRetryCount_recordFailure, habs h]
    · rw [recordFailure_exp_val, habs h, pow_zero, Nat.mul_one]
  · rw [redis_getRetryCount_recordFailure, Nat.add_sub_cancel,
      redis_recordFailure_exp_val]

/-- Witness for C4 at a fresh id: the entry is created with retryCount 1
and the first exponential backoff equals the base delay. -/
theorem recordFailure_contract_witness :
    (InMemoryBackoffStore.recordFailure ⟨[]⟩ 100 "m" 250
      RetryStrategy.exponential).1.getRetryCount "m" = 1 ∧
    (InMemoryBackoffStore.recordFailure ⟨[]⟩ 100 "m" 250
      RetryStrategy.exponential).2 = 100 + 250 :=
  (recordFailure_contract ⟨[]⟩ ⟨"backoff:", []⟩ 100 "m" 250
    RetryStrategy.exponential).2.2.2.2.1 rfl

/-- C8: under the exponential strategy with a single id and base delay, the
next-retry instants returned by successive `recordFailure` calls at
non-decreasing call times are non-decreasing. -/
theorem recordFailureSeq_monotone (s : InMemoryBackoffStore) (id : String)
    (base : Nat) (times : List Nat) (ht : times.Chain' (· ≤ ·)) :
    ((s.recordFailureSeq id base times).2).Chain' (· ≤ ·) := by
  induction times generalizing s with
  | nil => simp [InMemoryBackoffStore.recordFailureSeq]
  | cons t ts ih =>
      cases ts with
      | nil =>
          simp [InMemoryBackoffStore.recordFailureSeq]
      | cons t₂ ts₂ =>
          have h12 := (List.chain'_cons.mp ht).1
          have htail := (List.chain'_cons.mp ht).2
          simp only [InMemoryBackoffStore.recordFailureSeq]
          rw [List.chain'_cons]
          exact ⟨recordFailure_step_mono s id base h12, ih _ htail⟩

/-- Witness for C8 on the instants 5 ≤ 7 ≤ 7. -/
theorem recordFailureSeq_monotone_witness :
    ((InMemoryBackoffStore.recordFailureSeq ⟨[]⟩ "m" 100
      [5, 7, 7]).2).Chain' (· ≤ ·) :=
  recordFailureSeq_monotone ⟨[]⟩ "m" 100 [5, 7, 7]
    (List.chain'_cons.mpr ⟨by omega,
      List.chain'_cons.mpr ⟨by omega, List.chain'_singleton _⟩⟩)

/-- C9: after `markProcessed(m, ttl)` with no intervening operation on `m`,
`hasProcessed(m)` answers true strictly within ttl seconds of the mark and
false once ttl seconds have elapsed. -/
theorem markProcessed_hasProcessed_ttl (s : InMemoryIdempotencyStore)
    (tMark ttl tQuery : Nat) (id : String) :
    (tQuery < tMark + ttl * 1000 →
      ((s.markProcessed tMark id ttl).hasProcessed tQuery id).2 = true) ∧
    (tMark + ttl * 1000 ≤ tQuery →
      ((s.markProcessed tMark id ttl).hasProcessed tQuery id).2 = false) :=
  ⟨fun h => hasProcessed_markProcessed_of_lt h,
   fun h => hasProcessed_markProcessed_of_ge h⟩

/-- Witness for C9: with a 1-second TTL marked at instant 0, the id is
still processed at 500 ms and no longer at 1000 ms. -/
theorem markProcessed_hasProcessed_ttl_witness :
    ((InMemoryIdempotencyStore.markProcessed ⟨[]⟩ 0 "m" 1).hasProcessed
      500 "m").2 = true ∧
    ((InMemoryIdempotencyStore.markProcessed ⟨[]⟩ 0 "m" 1).hasProcessed
      1000 "m").2 = false :=
  ⟨(markProcessed_hasProcessed_ttl ⟨[]⟩ 0 1 500 "m").1 (by decide),
   (markProcessed_hasProcessed_ttl ⟨[]⟩ 0 1 1000 "m").2 (by decide)⟩

/-- C2: a flush whose callback fails swaps the buffers back, so every key of
the flushed buffer is back in the active buffer when the error propagates,
and a subsequent successful flush emits exactly those keys. -/
theorem flush_failure_no_loss {T : Type} (s : DoubleBuffer T)
    (h1 : s.isFlushing = false) (h2 : s.activeBuffer ≠ []) :
    (s.flush false).threw = true ∧
    (s.flush false).state.activeBuffer = s.activeBuffer ∧
    ((s.flush false).state.flush true).emitted = some s.activeBuffer := by
  rw [flush_failed_state s h1 h2]
  exact ⟨rfl, rfl, flush_ok_emits _ rfl h2⟩

/-- Witness for C2 on a buffer holding one key. -/
theorem flush_failure_no_loss_witness :
    ((⟨[("a", 1)], [], false⟩ : DoubleBuffer Nat).flush false).threw =
      true ∧
    ((⟨[("a", 1)], [], false⟩ : DoubleBuffer Nat).flush
      false).state.activeBuffer = [("a", 1)] ∧
    (((⟨[("a", 1)], [], false⟩ : DoubleBuffer Nat).flush
      false).state.flush true).emitted = some [("a", 1)] :=
  flush_failure_no_loss ⟨[("a", 1)], [], false⟩ rfl (by decide)

/-- C3 counterexample: with `maxBufferSize = 1`, a `set` that triggers the
size-based flush returns normally to its caller even though the flush
callback failed — the rejection is un-awaited and unhandled, so the error
is not raised to the caller of `set`. -/
theorem set_flush_failure_not_raised_cex :
    (DoubleBuffer.set ⟨1000, some 1⟩ (⟨[], [], false⟩ : DoubleBuffer Nat)
      "a" 1 false).emitted = some [("a", 1)] ∧
    (DoubleBuffer.set ⟨1000, some 1⟩ (⟨[], [], false⟩ : DoubleBuffer Nat)
      "a" 1 false).unhandledRejection = true ∧
    (DoubleBuffer.set ⟨1000, some 1⟩ (⟨[], [], false⟩ : DoubleBuffer Nat)
      "a" 1 false).threwToCaller = false := by
  refine ⟨?_, rfl, rfl⟩
  show some [("a", 1)] = some [("a", 1)]
  rfl

/-- C3 amended: a failing flush propagates its error to the caller of
`forceFlush` and of `stop`; a size-triggered flush performed inside `set`
or `update` never throws to the caller of `set`/`update` because its
promise is not awaited. -/
theorem flush_error_propagation {T : Type} (cfg : DoubleBufferConfig)
    (s : DoubleBuffer T) (k : String) (v : T) (red : T → T → T)
    (h1 : s.isFlushing = false) (h2 : s.activeBuffer ≠ []) :
    (s.forceFlush false).threwToCaller = true ∧
    (DoubleBuffer.stop s false).threwToCaller = true ∧
    (DoubleBuffer.set cfg s k v false).threwToCaller = false ∧
    (DoubleBuffer.update cfg s k v red false).threwToCaller = false := by
  refine ⟨?_, ?_, ?_, ?_⟩
  · show (s.flush false).threw = true
    rw [flush_failed_state s h1 h2]
  · show (s.flush false).threw = true
    rw [flush_failed_state s h1 h2]
  · unfold DoubleBuffer.set
    dsimp only
    split <;> rfl
  · unfold DoubleBuffer.update
    dsimp only
    split <;> rfl

/-- Witness for the amended C3 on a one-key buffer. -/
theorem flush_error_propagation_witness :
    ((⟨[("a", 1)], [], false⟩ : DoubleBuffer Nat).forceFlush
      false).threwToCaller = true ∧
    (DoubleBuffer.stop (⟨[("a", 1)], [], false⟩ : DoubleBuffer Nat)
      false).threwToCaller = true ∧
    (DoubleBuffer.set ⟨1000, some 1⟩
      (⟨[("a", 1)], [], false⟩ : DoubleBuffer Nat) "b" 2
      false).threwToCaller = false ∧
    (DoubleBuffer.update ⟨1000, some 1⟩
      (⟨[("a", 1)], [], false⟩ : DoubleBuffer Nat) "b" 2 Nat.add
      false).threwToCaller = false :=
  flush_error_propagation ⟨1000, some 1⟩ ⟨[("a", 1)], [], false⟩ "b" 2
    Nat.add rfl (by decide)

/-- C5 counterexample: base delay 5 seconds, exponential strategy, receive
count 1 — the code sets visibility 10 s (it uses `2 ^ retryCount`), while
the claimed formula `min(43200, floor(baseDelayMs * 2^(retryCount-1) /
1000))` gives 5 s. -/
theorem visibility_exponent_cex :
    SQSConsumerV2.calculateVisibilityTimeout
      ⟨5, TimeUnit.sec, RetryStrategy.exponential⟩
      ⟨some "id-1", some "rh-1", some 1⟩ = 10 ∧
    min 43200 (toMilliseconds 5 TimeUnit.sec * 2 ^ (1 - 1) / 1000) = 5 ∧
    (10 : Nat) ≠ 5 := by
  refine ⟨?_, by norm_num [toMilliseconds], by norm_num⟩
  show min (SQSConsumerV2.calculateBackoffDelay _ _ / 1000) 43200 = 10
  norm_num [SQSConsumerV2.calculateBackoffDelay, toMilliseconds]

/-- C5 amended: every `changeVisibility` call issued for a retry message
sets `min(43200, floor(backoffDelayMs / 1000))` seconds, where under the
exponential strategy `backoffDelayMs = baseDelayMs * 2 ^ retryCount` with
the retry count parsed from the message's receive-count attribute. -/
theorem retry_visibility_value (opts : V2Options) (msgs : List Message)
    (m : Message) (h : String) (rc : Nat) (hm : m ∈ msgs)
    (hrh : m.ReceiptHandle = some h)
    (hrc : m.approximateReceiveCount = some rc)
    (hstrat : opts.retryStrategy = RetryStrategy.exponential) :
    SQSConsumerV2.calculateVisibilityTimeout opts m =
      min 43200 (toMilliseconds opts.backoffBaseDelay
        opts.backoffBaseDelayUnit * 2 ^ rc / 1000) ∧
    (h, min 43200 (toMilliseconds opts.backoffBaseDelay
        opts.backoffBaseDelayUnit * 2 ^ rc / 1000)) ∈
      SQSConsumerV2.retryPhase opts msgs := by
  have heq : SQSConsumerV2.calculateVisibilityTimeout opts m =
      min 43200 (toMilliseconds opts.backoffBaseDelay
        opts.backoffBaseDelayUnit * 2 ^ rc / 1000) := by
    unfold SQSConsumerV2.calculateVisibilityTimeout
      SQSConsumerV2.calculateBackoffDelay
    rw [hrc, hstrat, Nat.min_comm]
    rfl
  refine ⟨heq, List.mem_filterMap.mpr ⟨m, hm, ?_⟩⟩
  rw [hrh]
  simp [heq]

/-- Witness for the amended C5: base 5 s, receive count 1 — the call pairs
the receipt handle with 10 seconds. -/
theorem retry_visibility_value_witness :
    SQSConsumerV2.calculateVisibilityTimeout
      ⟨5, TimeUnit.sec, RetryStrategy.exponential⟩
      ⟨some "id-1", some "rh-1", some 1⟩ =
      min 43200 (toMilliseconds 5 TimeUnit.sec * 2 ^ 1 / 1000) ∧
    ("rh-1", min 43200 (toMilliseconds 5 TimeUnit.sec * 2 ^ 1 / 1000)) ∈
      SQSConsumerV2.retryPhase ⟨5, TimeUnit.sec, RetryStrategy.exponential⟩
        [⟨some "id-1", some "rh-1", some 1⟩] :=
  retry_visibility_value ⟨5, TimeUnit.sec, RetryStrategy.exponential⟩
    [⟨some "id-1", some "rh-1", some 1⟩] ⟨some "id-1", some "rh-1", some 1⟩
    "rh-1" 1 (List.mem_singleton.mpr rfl) rfl rfl rfl

/-- C1 counterexample: a batch with one successful and one permanently
failed message produces TWO delete-batch calls (one per bucket), not one
call with the union of the buckets. -/
theorem two_delete_calls_cex :
    (SQSConsumer.processMessages
      ⟨86400, 1, TimeUnit.sec, RetryStrategy.exponential, none⟩
      (fun m _ => if m.MessageId == some "id-1" then HandlerOutcome.success
        else HandlerOutcome.failureExc "boom")
      0 ⟨none, none⟩
      [⟨some "id-1", some "rh-1", none⟩, ⟨some "id-2", some "rh-2", none⟩]).successful = [⟨some "id-1", some "rh-1", none⟩] ∧
    (SQSConsumer.processMessages
      ⟨86400, 1, TimeUnit.sec, RetryStrategy.exponential, none⟩
      (fun m _ => if m.MessageId == some "id-1" then HandlerOutcome.success
        else HandlerOutcome.failureExc "boom")
      0 ⟨none, none⟩
      [⟨some "id-1", some "rh-1", none⟩, ⟨some "id-2", some "rh-2", none⟩]).permanentFailure = [⟨some "id-2", some "rh-2", none⟩] ∧
    (SQSConsumer.processMessages
      ⟨86400, 1, TimeUnit.sec, RetryStrategy.exponential, none⟩
      (fun m _ => if m.MessageId == some "id-1" then HandlerOutcome.success
        else HandlerOutcome.failureExc "boom")
      0 ⟨none, none⟩
      [⟨some "id-1", some "rh-1", none⟩, ⟨some "id-2", some "rh-2", none⟩]).deleteCalls =
      [[("0", "rh-1")], [("0", "rh-2")]] := by
  refine ⟨?_, ?_, ?_⟩ <;> rfl

/-- C1 amended: after a batch, the runtime issues one delete-batch call for
the successful bucket and one for the permanent-failure bucket — each
skipped when it contributes no entries, so at most two calls, and exactly
one only when a single bucket contributes entries; the entries across the
calls are exactly the union of the two buckets' receipt handles (stated for
the modelled sequential dispatch loop; the parallel branch reaches the same
per-bucket delete phase but its interleaving is not modelled). -/
theorem delete_calls_per_bucket (opts : SQSConsumerOptions)
    (handler : Message → MessageMetadata → HandlerOutcome) (now : Nat)
    (st : ConsumerState) (msgs : List Message) :
    (SQSConsumer.processMessages opts handler now st msgs).deleteCalls.length =
      (if SQSConsumer.deleteMessagesEntries (SQSConsumer.processMessages
          opts handler now st msgs).successful = [] then 0
        else 1) +
      (if SQSConsumer.deleteMessagesEntries (SQSConsumer.processMessages
          opts handler now st msgs).permanentFailure = [] then 0
        else 1) ∧
    (SQSConsumer.processMessages opts handler now st msgs).deleteCalls.flatten =
      SQSConsumer.deleteMessagesEntries (SQSConsumer.processMessages opts
        handler now st msgs).successful ++
      SQSConsumer.deleteMessagesEntries (SQSConsumer.processMessages opts
        handler now st msgs).permanentFailure :=
  ⟨deletePhase_length _ _, deletePhase_flatten _ _⟩

/-- C7: a message classified successful or permanent-failure appears, via
its receipt handle, in exactly one delete-batch entry across the calls made
for its batch (receipt handles are distinct within a delivery batch). -/
theorem classified_message_deleted_once (opts : SQSConsumerOptions)
    (handler : Message → MessageMetadata → HandlerOutcome) (now : Nat)
    (st : ConsumerState) (msgs : List Message)
    (m : Message) (h : String)
    (hnd : (handlesOf msgs).Nodup)
    (hm : m ∈ (SQSConsumer.processMessages opts handler now st msgs).successful ∨
      m ∈ (SQSConsumer.processMessages opts handler now st msgs).permanentFailure)
    (hrh : m.ReceiptHandle = some h) :
    ((SQSConsumer.processMessages opts handler now st msgs).deleteCalls.flatten.map Prod.snd).count h = 1 := by
  have hflat : (SQSConsumer.processMessages opts handler now st msgs).deleteCalls.flatten.map Prod.snd =
      handlesOf (SQSConsumer.processMessages opts handler now st msgs).successful ++
      handlesOf (SQSConsumer.processMessages opts handler now st msgs).permanentFailure := by
    rw [show (SQSConsumer.processMessages opts handler now st msgs).deleteCalls = SQSConsumer.deletePhase
          (SQSConsumer.processMessages opts handler now st msgs).successful
          (SQSConsumer.processMessages opts handler now st msgs).permanentFailure from rfl]
    rw [deletePhase_flatten, List.map_append, entries_map_snd,
      entries_map_snd]
    rfl
  rw [hflat, List.count_append]
  set rs := (SQSConsumer.processLoop opts handler now st msgs).2 with hrs
  have hsum := bucket_handle_count rs h
  have hfst : rs.map Prod.fst = msgs := processLoop_map_fst _ _ _ _ _
  rw [hfst] at hsum
  have hle : (handlesOf msgs).count h ≤ 1 :=
    List.nodup_iff_count_le_one.mp hnd h
  have hsucc : (SQSConsumer.processMessages opts handler now st msgs).successful = SQSConsumer.bucketOf rs Bucket.successful := rfl
  have hpf : (SQSConsumer.processMessages opts handler now st msgs).permanentFailure =
      SQSConsumer.bucketOf rs Bucket.permanentFailure := rfl
  rw [hsucc, hpf]
  rcases hm with hm | hm
  · have hpos : 0 < (handlesOf (SQSConsumer.bucketOf rs
        Bucket.successful)).count h := by
      refine List.count_pos_iff.mpr ?_
      exact List.mem_filterMap.mpr ⟨m, by rwa [hsucc] at hm, hrh⟩
    omega
  · have hpos : 0 < (handlesOf (SQSConsumer.bucketOf rs
        Bucket.permanentFailure)).count h := by
      refine List.count_pos_iff.mpr ?_
      exact List.mem_filterMap.mpr ⟨m, by rwa [hpf] at hm, hrh⟩
    omega

/-- Witness for C7: a single successful message with receipt handle 'rh-1'
appears exactly once in the delete entries. -/
theorem classified_message_deleted_once_witness :
    ((SQSConsumer.processMessages
      ⟨86400, 1, TimeUnit.sec, RetryStrategy.exponential, none⟩
      (fun _ _ => HandlerOutcome.success) 0 ⟨none, none⟩
      [⟨some "id-1", some "rh-1", none⟩]).deleteCalls.flatten.map Prod.snd).count "rh-1" = 1 :=
  classified_message_deleted_once
    ⟨86400, 1, TimeUnit.sec, RetryStrategy.exponential, none⟩
    (fun _ _ => HandlerOutcome.success) 0 ⟨none, none⟩
    [⟨some "id-1", some "rh-1", none⟩]
    ⟨some "id-1", some "rh-1", none⟩ "rh-1"
    (by decide) (Or.inl (by decide)) rfl

theorem processMessage_unknown_eq (opts : SQSConsumerOptions)
    (handler : Message → MessageMetadata → HandlerOutcome) (now : Nat)
    (oi : Option InMemoryIdempotencyStore)
    (ob : Option InMemoryBackoffStore) (msg : Message)
    (hb : (match ob with
      | some b => b.canProcess now (msg.MessageId.getD "unknown")
      | none => true) = true)
    (hi : (match oi with
      | some i => (i.hasProcessed now (msg.MessageId.getD "unknown")).2
      | none => false) = false)
    (hh : ∀ md, handler msg md = HandlerOutcome.unknownExc) :
    SQSConsumer.processMessage opts handler now ⟨oi, ob⟩ msg =
      ⟨⟨oi.map (fun i => ((i.hasProcessed now
          (msg.MessageId.getD "unknown")).1.markProcessed now
          (msg.MessageId.getD "unknown")
          opts.idempotencyTtlSeconds).remove
          (msg.MessageId.getD "unknown")),
        ob.map (fun b => (b.recordFailure now
          (msg.MessageId.getD "unknown")
          (toMilliseconds opts.backoffBaseDelay opts.backoffBaseDelayUnit)
          opts.retryStrategy).1)⟩,
        Bucket.retry, true⟩ := by
  cases oi <;> cases ob <;>
    simp_all [SQSConsumer.processMessage, SQSConsumer.dispatchHandler,
      SQSConsumer.recordRetry, hh]

/-- Exception-signalling consumer only: a handler throw that is neither the
retry nor the permanent-failure exception classifies the delivery as retry:
the message lands in the retry bucket and is not deleted (a batch holding
only it issues no delete-batch call), the failure is recorded in the
backoff store when one is configured, and the pre-set idempotency entry is
removed when a store is configured. -/
theorem unknown_error_is_retry (opts : SQSConsumerOptions)
    (handler : Message → MessageMetadata → HandlerOutcome) (now : Nat)
    (st : ConsumerState) (msg : Message)
    (hb : (match st.backoff with
      | some b => b.canProcess now (msg.MessageId.getD "unknown")
      | none => true) = true)
    (hi : (match st.idempotency with
      | some i => (i.hasProcessed now (msg.MessageId.getD "unknown")).2
      | none => false) = false)
    (hh : ∀ md, handler msg md = HandlerOutcome.unknownExc) :
    (SQSConsumer.processMessage opts handler now st msg).bucket =
      Bucket.retry ∧
    (SQSConsumer.processMessage opts handler now st msg).handlerInvoked =
      true ∧
    (∀ b, st.backoff = some b →
      ∃ b', (SQSConsumer.processMessage opts handler now st
          msg).state.backoff = some b' ∧
        b'.getRetryCount (msg.MessageId.getD "unknown") =
          b.getRetryCount (msg.MessageId.getD "unknown") + 1) ∧
    (∀ i, st.idempotency = some i →
      ∃ i', (SQSConsumer.processMessage opts handler now st
          msg).state.idempotency = some i' ∧
        mapGet i'.processedMessages (msg.MessageId.getD "unknown") =
          none) ∧
    (SQSConsumer.processMessages opts handler now st [msg]).deleteCalls = [] := by
  obtain ⟨oi, ob⟩ := st
  have key := processMessage_unknown_eq opts handler now oi ob msg hb hi hh
  refine ⟨by rw [key], by rw [key], ?_, ?_, ?_⟩
  · intro b hob
    subst hob
    rw [key]
    exact ⟨_, rfl, getRetryCount_recordFailure _ _ _ _ _⟩
  · intro i hoi
    subst hoi
    rw [key]
    exact ⟨_, rfl, mapGet_mapDelete_self _ _⟩
  · have hloop : SQSConsumer.processLoop opts handler now ⟨oi, ob⟩ [msg] =
        ((SQSConsumer.processMessage opts handler now ⟨oi, ob⟩ msg).state,
          [(msg, (SQSConsumer.processMessage opts handler now ⟨oi, ob⟩
            msg).bucket)]) := rfl
    show (SQSConsumer.deletePhase _ _) = []
    rw [hloop, key]
    rfl

/-- Concrete instance of the retry classification with both stores
configured and a handler that throws an unrecognized error. -/
theorem unknown_error_is_retry_witness :
    (SQSConsumer.processMessage
      ⟨86400, 1, TimeUnit.sec, RetryStrategy.exponential, none⟩
      (fun _ _ => HandlerOutcome.unknownExc) 0 ⟨some ⟨[]⟩, some ⟨[]⟩⟩
      ⟨some "id-9", some "rh-9", none⟩).bucket = Bucket.retry ∧
    (SQSConsumer.processMessage
      ⟨86400, 1, TimeUnit.sec, RetryStrategy.exponential, none⟩
      (fun _ _ => HandlerOutcome.unknownExc) 0 ⟨some ⟨[]⟩, some ⟨[]⟩⟩
      ⟨some "id-9", some "rh-9", none⟩).handlerInvoked = true :=
  ⟨(unknown_error_is_retry
      ⟨86400, 1, TimeUnit.sec, RetryStrategy.exponential, none⟩
      (fun _ _ => HandlerOutcome.unknownExc) 0 ⟨some ⟨[]⟩, some ⟨[]⟩⟩
      ⟨some "id-9", some "rh-9", none⟩ rfl rfl
      (fun _ => rfl)).1,
   (unknown_error_is_retry
      ⟨86400, 1, TimeUnit.sec, RetryStrategy.exponential, none⟩
      (fun _ _ => HandlerOutcome.unknownExc) 0 ⟨some ⟨[]⟩, some ⟨[]⟩⟩
      ⟨some "id-9", some "rh-9", none⟩ rfl rfl
      (fun _ => rfl)).2.1⟩

theorem processMessage_success_eq (opts : SQSConsumerOptions)
    (handler : Message → MessageMetadata → HandlerOutcome) (now : Nat)
    (oi : InMemoryIdempotencyStore) (ob : Option InMemoryBackoffStore)
    (msg : Message) (hmid : msg.MessageId = none)
    (hb : (match ob with
      | some b => b.canProcess now "unknown"
      | none => true) = true)
    (hfresh : (oi.hasProcessed now "unknown").2 = false)
    (hsucc : ∀ md, handler msg md = HandlerOutcome.success) :
    SQSConsumer.processMessage opts handler now ⟨some oi, ob⟩ msg =
      ⟨⟨some ((oi.hasProcessed now "unknown").1.markProcessed now "unknown"
          opts.idempotencyTtlSeconds),
        ob.map (fun b => b.clear "unknown")⟩,
        Bucket.successful, true⟩ := by
  cases ob <;>
    simp_all [SQSConsumer.processMessage, SQSConsumer.dispatchHandler, hsucc]

/-- C10: deliveries without a `MessageId` all use the fallback key
'unknown'; with an idempotency store configured, once one such delivery is
processed successfully (and pre-marked under the key 'unknown'), a later
delivery that also lacks a `MessageId` is classified successful and handed
to the delete phase without the handler running, while the 'unknown' entry
is unexpired. -/
theorem missing_id_shared_unknown_key (opts : SQSConsumerOptions)
    (handler : Message → MessageMetadata → HandlerOutcome)
    (now1 now2 : Nat) (oi : InMemoryIdempotencyStore)
    (ob : Option InMemoryBackoffStore) (msg1 msg2 : Message)
    (h1 : msg1.MessageId = none) (h2 : msg2.MessageId = none)
    (hb1 : (match ob with
      | some b => b.canProcess now1 "unknown"
      | none => true) = true)
    (hb2 : (match (SQSConsumer.processMessage opts handler now1
        ⟨some oi, ob⟩ msg1).state.backoff with
      | some b => b.canProcess now2 "unknown"
      | none => true) = true)
    (hfresh : (oi.hasProcessed now1 "unknown").2 = false)
    (hsucc : ∀ md, handler msg1 md = HandlerOutcome.success)
    (htime : now2 < now1 + opts.idempotencyTtlSeconds * 1000) :
    (SQSConsumer.processMessage opts handler now1 ⟨some oi, ob⟩
      msg1).bucket = Bucket.successful ∧
    (SQSConsumer.processMessage opts handler now2
      (SQSConsumer.processMessage opts handler now1 ⟨some oi, ob⟩
        msg1).state msg2).bucket = Bucket.successful ∧
    (SQSConsumer.processMessage opts handler now2
      (SQSConsumer.processMessage opts handler now1 ⟨some oi, ob⟩
        msg1).state msg2).handlerInvoked = false := by
  have key1 := processMessage_success_eq opts handler now1 oi ob msg1 h1
    hb1 hfresh hsucc
  have hdup : (((oi.hasProcessed now1 "unknown").1.markProcessed now1
      "unknown" opts.idempotencyTtlSeconds).hasProcessed now2
      "unknown").2 = true :=
    hasProcessed_markProcessed_of_lt htime
  rw [key1] at hb2
  refine ⟨by rw [key1], ?_, ?_⟩ <;>
    · rw [key1]
      simp_all [SQSConsumer.processMessage, h2]

/-- Witness for C10: two messages without a `MessageId`; the second is
classified successful without the handler running. -/
theorem missing_id_shared_unknown_key_witness :
    (SQSConsumer.processMessage
      ⟨86400, 1, TimeUnit.sec, RetryStrategy.exponential, none⟩
      (fun _ _ => HandlerOutcome.success) 0 ⟨some ⟨[]⟩, none⟩
      ⟨none, some "rh-1", none⟩).bucket = Bucket.successful ∧
    (SQSConsumer.processMessage
      ⟨86400, 1, TimeUnit.sec, RetryStrategy.exponential, none⟩
      (fun _ _ => HandlerOutcome.success) 5
      (SQSConsumer.processMessage
        ⟨86400, 1, TimeUnit.sec, RetryStrategy.exponential, none⟩
        (fun _ _ => HandlerOutcome.success) 0 ⟨some ⟨[]⟩, none⟩
        ⟨none, some "rh-1", none⟩).state
      ⟨none, some "rh-2", none⟩).bucket = Bucket.successful ∧
    (SQSConsumer.processMessage
      ⟨86400, 1, TimeUnit.sec, RetryStrategy.exponential, none⟩
      (fun _ _ => HandlerOutcome.success) 5
      (SQSConsumer.processMessage
        ⟨86400, 1, TimeUnit.sec, RetryStrategy.exponential, none⟩
        (fun _ _ => HandlerOutcome.success) 0 ⟨some ⟨[]⟩, none⟩
        ⟨none, some "rh-1", none⟩).state
      ⟨none, some "rh-2", none⟩).handlerInvoked = false :=
  missing_id_shared_unknown_key
    ⟨86400, 1, TimeUnit.sec, RetryStrategy.exponential, none⟩
    (fun _ _ => HandlerOutcome.success) 0 5 ⟨[]⟩ none
    ⟨none, some "rh-1", none⟩ ⟨none, some "rh-2", none⟩
    rfl rfl rfl rfl rfl (fun _ => rfl) (by norm_num)

/-- C6 counterexample: in the result-returning consumer (the second cited
runtime) the handler call is not wrapped in try/catch, so a handler throw
is NOT classified retry — `processMessage` yields the error itself, and the
whole batch aborts with no buckets, no delete-batch and no
change-visibility calls. -/
theorem v2_unknown_throw_cex :
    SQSConsumerV2.processMessage 86400 none
      (fun _ _ => Except.error "boom") 0 none
      ⟨some "id-1", some "rh-1", none⟩ = Except.error "boom" ∧
    SQSConsumerV2.processMessages
      ⟨5, TimeUnit.sec, RetryStrategy.exponential⟩ 86400 none
      (fun _ _ => Except.error "boom") 0 none
      [⟨some "id-1", some "rh-1", none⟩] = Except.error "boom" :=
  ⟨rfl, rfl⟩

/-- C6 (amended): in the exception-signalling consumer an unrecognized
handler throw is classified retry — the message lands in the retry bucket
and is not deleted (a batch holding only it issues no delete-batch call),
the failure is recorded in the backoff store when one is configured, and
the pre-set idempotency entry is removed when a store is configured; in the
result-returning consumer the handler call is not wrapped in try/catch, so
an unrecognized throw propagates out of `processMessage` and aborts the
batch in `processMessages` before any classification, delete-batch or
change-visibility call. -/
theorem unknown_error_retry_or_propagates (opts : SQSConsumerOptions)
    (handler : Message → MessageMetadata → HandlerOutcome) (now : Nat)
    (st : ConsumerState) (msg : Message)
    (v2opts : V2Options) (ttl : Nat) (mrc : Option Nat)
    (v2handler : Message → MessageMetadata → Except String MessageResult)
    (idem : Option InMemoryIdempotencyStore) (v2msg : Message) (e : String)
    (hb : (match st.backoff with
      | some b => b.canProcess now (msg.MessageId.getD "unknown")
      | none => true) = true)
    (hi : (match st.idempotency with
      | some i => (i.hasProcessed now (msg.MessageId.getD "unknown")).2
      | none => false) = false)
    (hh : ∀ md, handler msg md = HandlerOutcome.unknownExc)
    (hv2i : (match idem with
      | some i => (i.hasProcessed now (v2msg.MessageId.getD "unknown")).2
      | none => false) = false)
    (hthrow : ∀ md, v2handler v2msg md = Except.error e) :
    (SQSConsumer.processMessage opts handler now st msg).bucket =
      Bucket.retry ∧
    (SQSConsumer.processMessage opts handler now st msg).handlerInvoked =
      true ∧
    (∀ b, st.backoff = some b →
      ∃ b', (SQSConsumer.processMessage opts handler now st
          msg).state.backoff = some b' ∧
        b'.getRetryCount (msg.MessageId.getD "unknown") =
          b.getRetryCount (msg.MessageId.getD "unknown") + 1) ∧
    (∀ i, st.idempotency = some i →
      ∃ i', (SQSConsumer.processMessage opts handler now st
          msg).state.idempotency = some i' ∧
        mapGet i'.processedMessages (msg.MessageId.getD "unknown") =
          none) ∧
    (SQSConsumer.processMessages opts handler now st [msg]).deleteCalls =
      [] ∧
    SQSConsumerV2.processMessage ttl mrc v2handler now idem v2msg =
      Except.error e ∧
    SQSConsumerV2.processMessages v2opts ttl mrc v2handler now idem
      [v2msg] = Except.error e := by
  have ha := unknown_error_is_retry opts handler now st msg hb hi hh
  have hpm : SQSConsumerV2.processMessage ttl mrc v2handler now idem
      v2msg = Except.error e := by
    cases idem with
    | none =>
        simp [SQSConsumerV2.processMessage, SQSConsumerV2.dispatchResult,
          hthrow]
    | some i =>
        simp_all [SQSConsumerV2.processMessage,
          SQSConsumerV2.dispatchResult, hthrow]
  refine ⟨ha.1, ha.2.1, ha.2.2.1, ha.2.2.2.1, ha.2.2.2.2, hpm, ?_⟩
  simp [SQSConsumerV2.processMessages, SQSConsumerV2.processLoop, hpm]

/-- Witness for the amended C6: both stores configured on the
exception-signalling side, an idempotency store configured on the
result-returning side where the handler throws. -/
theorem unknown_error_retry_or_propagates_witness :
    (SQSConsumer.processMessage
      ⟨86400, 1, TimeUnit.sec, RetryStrategy.exponential, none⟩
      (fun _ _ => HandlerOutcome.unknownExc) 0 ⟨some ⟨[]⟩, some ⟨[]⟩⟩
      ⟨some "id-9", some "rh-9", none⟩).bucket = Bucket.retry ∧
    SQSConsumerV2.processMessage 86400 none
      (fun _ _ => Except.error "boom") 0 (some ⟨[]⟩)
      ⟨some "id-7", some "rh-7", none⟩ = Except.error "boom" :=
  ⟨(unknown_error_retry_or_propagates
      ⟨86400, 1, TimeUnit.sec, RetryStrategy.exponential, none⟩
      (fun _ _ => HandlerOutcome.unknownExc) 0 ⟨some ⟨[]⟩, some ⟨[]⟩⟩
      ⟨some "id-9", some "rh-9", none⟩
      ⟨5, TimeUnit.sec, RetryStrategy.exponential⟩ 86400 none
      (fun _ _ => Except.error "boom") (some ⟨[]⟩)
      ⟨some "id-7", some "rh-7", none⟩ "boom"
      rfl rfl (fun _ => rfl) rfl (fun _ => rfl)).1,
   (unknown_error_retry_or_propagates
      ⟨86400, 1, TimeUnit.sec, RetryStrategy.exponential, none⟩
      (fun _ _ => HandlerOutcome.unknownExc) 0 ⟨some ⟨[]⟩, some ⟨[]⟩⟩
      ⟨some "id-9", some "rh-9", none⟩
      ⟨5, TimeUnit.sec, RetryStrategy.exponential⟩ 86400 none
      (fun _ _ => Except.error "boom") (some ⟨[]⟩)
      ⟨some "id-7", some "rh-7", none⟩ "boom"
      rfl rfl (fun _ => rfl) rfl (fun _ => rfl)).2.2.2.2.2.1⟩
